import Mathlib

/-!
Shallow embedding of the task-list REST backend (Hono + drizzle + zod, one
`tasks` table) and proofs about its request handlers.

The embedding follows the current server source (the revision with the
`category` column, matching `src/db/schema.ts`):
  * the `tasks` table row becomes the `Task` structure;
  * each route handler becomes a pure function from the authenticated
    `userId`, the (already JSON-decoded) request data and the current list of
    table rows to the new rows plus an outcome value mirroring the HTTP
    status and body the handler produces;
  * SQL `WHERE` clauses become `List.filter` predicates, `GROUP BY` becomes
    a `dedup` of the grouping key, `ORDER BY ... DESC` becomes an insertion
    sort on the sort key, `INSERT ... RETURNING` appends freshly built rows;
  * zod schemas become parsers over bodies whose fields are `Option`s, so
    that an absent JSON field is representable;
  * the external generation provider's reply is abstracted into the
    `GeminiOutcome` type, one constructor per control path the handler
    distinguishes (fetch rejection, non-ok HTTP status, body that is not
    JSON, missing/empty candidate text, candidate text that is not JSON,
    successfully parsed content).
-/

set_option maxHeartbeats 1000000

namespace TaskApi

/-- A row of the `tasks` table (`src/db/schema.ts`): serial `id`, non-null
`userId`, `topic`, `category` (DB default `'General'`), `content`,
`isCompleted` (DB default `false`), nullable `parentId`, `createdAt`
timestamp (modelled as a `Nat`). -/
structure Task where
  id : Nat
  userId : String
  topic : String
  category : String
  content : String
  isCompleted : Bool
  parentId : Option Int
  createdAt : Nat
deriving Repr, DecidableEq

/-- Insert `x` into a list that is sorted by `key` descending, keeping it
sorted (used to model SQL `ORDER BY key DESC`). -/
def insertDesc (key : α → Nat) (x : α) : List α → List α
  | [] => [x]
  | y :: ys => if key y ≤ key x then x :: y :: ys else y :: insertDesc key x ys

/-- Sort a list by `key` descending (model of SQL `ORDER BY key DESC`). -/
def sortByKeyDesc (key : α → Nat) : List α → List α
  | [] => []
  | x :: xs => insertDesc key x (sortByKeyDesc key xs)

theorem mem_insertDesc (key : α → Nat) (x a : α) (l : List α) :
    a ∈ insertDesc key x l ↔ a = x ∨ a ∈ l := by
  induction l with
  | nil => simp [insertDesc]
  | cons y ys ih =>
      by_cases h : key y ≤ key x
      · simp [insertDesc, h]
      · simp [insertDesc, h, ih]
        tauto

theorem mem_sortByKeyDesc (key : α → Nat) (a : α) (l : List α) :
    a ∈ sortByKeyDesc key l ↔ a ∈ l := by
  induction l with
  | nil => simp [sortByKeyDesc]
  | cons x xs ih => simp [sortByKeyDesc, mem_insertDesc, ih]

/-! ## GET /topics -/

/-- The `WHERE` clause of `GET /topics`: mandatory `userId` equality,
conjoined with a `category` equality only when the query parameter is
present, non-empty (JS truthiness) and different from the literal `"all"`
(`category && category !== "all" ? eq(...) : undefined`). -/
def topicsWhere (uid : String) (qcat : Option String) (t : Task) : Bool :=
  t.userId == uid &&
    (match qcat with
     | some cat => if cat != "" && cat != "all" then t.category == cat else true
     | none => true)

/-- `max(created_at)` over one `(topic, category)` group of the filtered
rows, the sort key of `GET /topics` (`orderBy(desc(max(createdAt)))`). -/
def groupMaxCreatedAt (filtered : List Task) (g : String × String) : Nat :=
  ((filtered.filter fun t => t.topic == g.1 && t.category == g.2).map
    Task.createdAt).foldl Nat.max 0

/-- `GET /topics`: select `(topic, category)` from the caller's rows
(optionally restricted by category), `GROUP BY topic, category`,
`ORDER BY max(created_at) DESC`. -/
def getTopics (uid : String) (qcat : Option String) (rows : List Task) :
    List (String × String) :=
  let filtered := rows.filter (topicsWhere uid qcat)
  let groups := (filtered.map fun t => (t.topic, t.category)).dedup
  sortByKeyDesc (groupMaxCreatedAt filtered) groups

/-! ## GET /tasks -/

/-- The `WHERE` clause of `GET /tasks`: mandatory `userId` equality,
conjoined with a `topic` equality only when the query parameter is present
and non-empty (`topic ? eq(...) : undefined`). -/
def tasksWhere (uid : String) (qtopic : Option String) (t : Task) : Bool :=
  t.userId == uid &&
    (match qtopic with
     | some tp => if tp != "" then t.topic == tp else true
     | none => true)

/-- `GET /tasks`: the caller's rows, optionally restricted to one topic,
ordered by `created_at` descending. -/
def getTasks (uid : String) (qtopic : Option String) (rows : List Task) :
    List Task :=
  sortByKeyDesc Task.createdAt (rows.filter (tasksWhere uid qtopic))

/-! ## DELETE /topics/:topic -/

/-- `DELETE /topics/:topic` (current revision): delete every row matching
`userId = uid AND topic = topic`; the handler never inspects how many rows
were deleted and always answers the success message with status 200. -/
def deleteTopicHandler (uid topic : String) (rows : List Task) :
    List Task × Nat :=
  (rows.filter fun t => !(t.userId == uid && t.topic == topic), 200)

/-! ## POST /tasks/bulk -/

/-- The raw JSON body of `POST /tasks/bulk` before validation; each field is
an `Option` so that an absent JSON field is representable. -/
structure BulkBody where
  topic : Option String
  category : Option String
  contents : Option (List String)
deriving Repr, DecidableEq

/-- The validated bulk-create payload. -/
structure BulkPayload where
  topic : String
  category : String
  contents : List String
deriving Repr, DecidableEq

/-- `createBulkTasksSchema`: `topic` a string of length ≥ 1, `category` any
string (required, but no minimum length), `contents` a non-empty array of
non-empty strings. A missing field or a violated bound fails the parse
(`zValidator` then answers 400). -/
def parseBulkBody (b : BulkBody) : Option BulkPayload :=
  match b.topic, b.category, b.contents with
  | some t, some c, some cs =>
      if 1 ≤ t.length && 1 ≤ cs.length && cs.all (fun s => 1 ≤ s.length)
      then some ⟨t, c, cs⟩ else none
  | _, _, _ => none

/-- The rows built by `contents.map(content => ...)` and inserted by
`db.insert(...).values(...)`: one row per content string, sharing
`topic`/`category`/`userId`, with serial ids from `nid` on, `isCompleted`
and `parentId` left to their column defaults (`false`, `NULL`) and
`createdAt` set by the store to the current time `now`. -/
def buildRows (uid topic category : String) (now : Nat) :
    Nat → List String → List Task
  | _, [] => []
  | nid, c :: cs =>
      { id := nid, userId := uid, topic := topic, category := category,
        content := c, isCompleted := false, parentId := none,
        createdAt := now } :: buildRows uid topic category now (nid + 1) cs

/-- The table state: its rows plus the next value of the `id` serial. -/
structure Db where
  rows : List Task
  nextId : Nat
deriving Repr, DecidableEq

/-- Model of JavaScript `String.prototype.trim`: strip leading and
trailing whitespace (kept as an executable char-list function so concrete
inputs evaluate). -/
def jsTrim (s : String) : String :=
  ⟨((s.data.dropWhile Char.isWhitespace).reverse.dropWhile
      Char.isWhitespace).reverse⟩

/-- The category actually written by `POST /tasks/bulk`:
`const finalCategory = category.trim() || 'General'` — a category that is
blank after trimming (the empty string is falsy) falls back to
`"General"`, otherwise the trimmed category is used. -/
def finalCategory (category : String) : String :=
  if jsTrim category = "" then "General" else jsTrim category

/-- The insert performed by `POST /tasks/bulk` after validation: one row
per content string, sharing topic, resolved category and userId; returns
the new state and the inserted rows (`returning()`). -/
def insertBulk (uid : String) (p : BulkPayload) (now : Nat) (db : Db) :
    Db × List Task :=
  let newRows := buildRows uid p.topic (finalCategory p.category) now db.nextId p.contents
  (⟨db.rows ++ newRows, db.nextId + p.contents.length⟩, newRows)

/-- Outcome of `POST /tasks/bulk`: 201 with the inserted rows, or the 400
that `zValidator` produces on a schema violation. -/
inductive BulkOutcome where
  | created (tasks : List Task)
  | badRequest
deriving Repr, DecidableEq

/-- The `POST /tasks/bulk` handler: validate, then insert. -/
def bulkHandler (uid : String) (b : BulkBody) (now : Nat) (db : Db) :
    Db × BulkOutcome :=
  match parseBulkBody b with
  | none => (db, .badRequest)
  | some p => ((insertBulk uid p now db).1, .created (insertBulk uid p now db).2)

/-! ## PUT /tasks/:id and DELETE /tasks/:id -/

/-- The body of `PUT /tasks/:id`; both fields optional
(`updateTaskSchema`). -/
structure UpdatePayload where
  content : Option String
  isCompleted : Option Bool
deriving Repr, DecidableEq

/-- `updateTaskSchema`: `content`, when present, must be non-empty;
`isCompleted`, when present, is a boolean; both may be absent. -/
def validUpdateBody (p : UpdatePayload) : Bool :=
  match p.content with
  | some c => 1 ≤ c.length
  | none => true

/-- The effect of `UPDATE ... SET content = ..., is_completed = ...` on one
row: a present field overwrites, an absent (`undefined`) field is dropped
from the `SET` list and leaves the column unchanged. -/
def applySet (p : UpdatePayload) (t : Task) : Task :=
  { t with content := p.content.getD t.content,
           isCompleted := p.isCompleted.getD t.isCompleted }

/-- The `WHERE` clause shared by `PUT /tasks/:id` and `DELETE /tasks/:id`:
`and(eq(tasks.id, id), eq(tasks.userId, auth.userId))`. -/
def rowKeyMatch (uid : String) (id : Nat) (t : Task) : Bool :=
  t.id == id && t.userId == uid

/-- Outcome of `PUT /tasks/:id`: 200 with the updated row, 400 from
`zValidator`, 404 `Task not found` when no row matched, or the 500 the
global `onError` handler produces when drizzle's `set` throws. -/
inductive UpdateOutcome where
  | ok (t : Task)
  | badRequest
  | notFound
  | internalError
deriving Repr, DecidableEq

/-- The `PUT /tasks/:id` handler. After validation it runs
`db.update(tasks).set({ content, isCompleted }).where(...)`. Drizzle's
`mapUpdateSet` drops `undefined` values and throws `No values to set` when
nothing remains, so a body with neither field reaches the global `onError`
handler as a non-Zod error and answers 500; otherwise every row matching
`(id, userId)` is updated and the first returned row is answered, or 404
when none matched. -/
def putHandler (uid : String) (id : Nat) (p : UpdatePayload)
    (rows : List Task) : List Task × UpdateOutcome :=
  if !validUpdateBody p then (rows, .badRequest)
  else if p.content.isNone && p.isCompleted.isNone then (rows, .internalError)
  else
    match (rows.filter (rowKeyMatch uid id)).map (applySet p) with
    | [] => (rows, .notFound)
    | u :: _ =>
        (rows.map fun t => if rowKeyMatch uid id t then applySet p t else t,
         .ok u)

/-- Outcome of `DELETE /tasks/:id`: 200 with a success message, or 404
`Task not found` when no row matched. -/
inductive DeleteOutcome where
  | deleted
  | notFound
deriving Repr, DecidableEq

/-- The `DELETE /tasks/:id` handler: delete the row matching
`(id, userId)`; 404 when `returning()` is empty. -/
def deleteTaskHandler (uid : String) (id : Nat) (rows : List Task) :
    List Task × DeleteOutcome :=
  match rows.filter (rowKeyMatch uid id) with
  | [] => (rows, .notFound)
  | _ :: _ => (rows.filter fun t => !rowKeyMatch uid id t, .deleted)

/-! ## POST /generate -/

/-- The raw JSON body of `POST /generate`. -/
structure GenBody where
  topic : Option String
deriving Repr, DecidableEq

/-- `generateTasksSchema`: `topic` must be a string of length ≥ 2. -/
def parseGenerateBody (g : GenBody) : Option String :=
  match g.topic with
  | some t => if 2 ≤ t.length then some t else none
  | none => none

/-- The externally observable shape of the generation provider's reply, one
constructor per control path the handler distinguishes: the fetch promise
rejected; the HTTP status was not ok; the body was not JSON
(`res.json()` rejects); `candidates[0].content.parts[0].text` was absent or
empty (JS falsiness); that text was not itself JSON (`JSON.parse` throws);
or it parsed to an object with optional `category` and `tasks` fields. -/
inductive GeminiOutcome where
  | fetchFailed
  | httpNotOk (status : Nat)
  | bodyNotJson
  | missingText
  | textNotJson
  | parsed (category : Option String) (tasks : Option (List String))
deriving Repr, DecidableEq

/-- The outcomes C2 calls a non-success status or an unparseable/empty
body — everything except a successfully parsed reply. -/
def isUpstreamFailure : GeminiOutcome → Bool
  | .parsed _ _ => false
  | _ => true

/-- `parsedContent.category || 'General'`: an absent or empty (falsy)
category falls back to `"General"`. -/
def resolveGenCategory : Option String → String
  | some c => if c = "" then "General" else c
  | none => "General"

/-- The post-validation part of `POST /generate`: every failure path goes
through the shared `catch` (or the empty-content throw feeding it) and
answers 500 `Failed to generate AI content.`; a parsed reply answers 200
with the category defaulted to `"General"` and the tasks defaulted to `[]`.
The handler never touches the `tasks` table: the rows pass through
unchanged. -/
def generateHandler (o : GeminiOutcome) (rows : List Task) :
    List Task × Nat × Option (String × List String) :=
  match o with
  | .parsed cat tasks => (rows, 200, some (resolveGenCategory cat, tasks.getD []))
  | _ => (rows, 500, none)

/-- The whole `POST /generate` route: `zValidator` answers 400 on a schema
violation, otherwise the handler runs against the provider's reply. -/
def generateRoute (g : GenBody) (o : GeminiOutcome) (rows : List Task) :
    List Task × Nat × Option (String × List String) :=
  match parseGenerateBody g with
  | none => (rows, 400, none)
  | some _ => generateHandler o rows

/-! ## Helper lemmas -/

theorem parseBulkBody_eq_some (b : BulkBody) (p : BulkPayload)
    (h : parseBulkBody b = some p) :
    b.topic = some p.topic ∧ b.category = some p.category ∧
    b.contents = some p.contents ∧ 1 ≤ p.topic.length ∧
    1 ≤ p.contents.length ∧ ∀ s ∈ p.contents, 1 ≤ s.length := by
  obtain ⟨bt, bc, bcs⟩ := b
  cases bt <;> cases bc <;> cases bcs <;> simp [parseBulkBody] at h
  obtain ⟨⟨⟨h1, h2⟩, h3⟩, h4⟩ := h
  subst h4
  exact ⟨rfl, rfl, rfl, h1, h2, h3⟩

theorem buildRows_length (uid topic category : String) (now nid : Nat)
    (cs : List String) :
    (buildRows uid topic category now nid cs).length = cs.length := by
  induction cs generalizing nid with
  | nil => rfl
  | cons c cs ih => simp [buildRows, ih]

theorem buildRows_map_content (uid topic category : String) (now nid : Nat)
    (cs : List String) :
    (buildRows uid topic category now nid cs).map Task.content = cs := by
  induction cs generalizing nid with
  | nil => rfl
  | cons c cs ih => simp [buildRows, ih]

theorem mem_buildRows (uid topic category : String) (now nid : Nat)
    (cs : List String) (t : Task) (ht : t ∈ buildRows uid topic category now nid cs) :
    t.userId = uid ∧ t.topic = topic ∧ t.category = category ∧
    t.isCompleted = false ∧ t.createdAt = now ∧ t.content ∈ cs := by
  induction cs generalizing nid with
  | nil => simp [buildRows] at ht
  | cons c cs ih =>
      rcases (by simpa [buildRows] using ht : _ ∨ _) with h | h
      · subst h; simp
      · have := ih (nid + 1) h
        tauto

theorem topicsWhere_userId (uid : String) (qcat : Option String) (t : Task)
    (h : topicsWhere uid qcat t = true) : t.userId = uid := by
  have := (Bool.and_eq_true _ _).mp h
  exact beq_iff_eq.mp this.1

theorem string_ne_empty_of_one_le_length (s : String) (h : 1 ≤ s.length) :
    s ≠ "" := by
  intro heq
  subst heq
  exact absurd h (by decide)

theorem map_update_id (uid : String) (id : Nat) (p : UpdatePayload)
    (l : List Task) (hl : ∀ a ∈ l, ¬rowKeyMatch uid id a = true) :
    (l.map fun t => if rowKeyMatch uid id t then applySet p t else t) = l := by
  induction l with
  | nil => rfl
  | cons x xs ih =>
      have hx := hl x (List.mem_cons_self x xs)
      simp only [List.map_cons, if_neg hx]
      rw [ih fun a ha => hl a (List.mem_cons_of_mem x ha)]

/-! ## Sample data used by the witnesses -/

/-- A sample row owned by user `u`. -/
def sampleTaskU : Task := ⟨1, "u", "rust", "General", "learn ownership", false, none, 5⟩

/-- A sample row owned by user `v` (a different caller). -/
def sampleTaskV : Task := ⟨2, "v", "rust", "General", "other note", false, none, 6⟩

/-- The spec's bulk-create scenario body: topic `rust`, blank category, two
contents. -/
def rustBody : BulkBody :=
  ⟨some "rust", some "", some ["learn ownership", "learn borrowing"]⟩

/-- First row the `rustBody` bulk-create inserts into an empty table whose
serial starts at 1, at time 7. -/
def rustRow1 : Task := ⟨1, "u", "rust", "General", "learn ownership", false, none, 7⟩

/-- Second row the `rustBody` bulk-create inserts. -/
def rustRow2 : Task := ⟨2, "u", "rust", "General", "learn borrowing", false, none, 7⟩

/-- A bulk-create body with three contents and a non-blank category. -/
def bulkBodyEx : BulkBody :=
  ⟨some "lean", some "Learning", some ["read tpil", "do exercises", "prove things"]⟩

/-! ## Claims -/

/-- C1 (counterexample): deleting a topic that matches zero rows does NOT
signal NotFound — on an empty table the handler still answers status 200,
refuting the claim's 404 clause. -/
theorem delete_topic_zero_rows_still_success :
    (deleteTopicHandler "u" "rust" []).2 = 200 ∧ (200 : Nat) ≠ 404 := by
  decide

/-- C1 (amended): for every caller and topic string the delete-topic
operation deletes exactly the caller's rows whose topic equals that string
(a row survives iff it is not such a row), but it always reports success
(status 200), even when zero rows matched — it never signals NotFound. -/
theorem delete_topic_deletes_exactly_and_always_succeeds
    (uid topic : String) (rows : List Task) :
    (∀ t, t ∈ (deleteTopicHandler uid topic rows).1 ↔
        t ∈ rows ∧ ¬(t.userId = uid ∧ t.topic = topic)) ∧
    (deleteTopicHandler uid topic rows).2 = 200 := by
  constructor
  · intro t
    simp [deleteTopicHandler, List.mem_filter]
    tauto
  · rfl

/-- C1 (witness): on a concrete two-row table, the foreign-owned row
survives the delete and the status is 200. -/
theorem delete_topic_deletes_exactly_witness :
    sampleTaskV ∈ (deleteTopicHandler "u" "rust" [sampleTaskU, sampleTaskV]).1 ∧
    (deleteTopicHandler "u" "rust" [sampleTaskU, sampleTaskV]).2 = 200 :=
  ⟨((delete_topic_deletes_exactly_and_always_succeeds "u" "rust"
      [sampleTaskU, sampleTaskV]).1 sampleTaskV).mpr (by decide),
   (delete_topic_deletes_exactly_and_always_succeeds "u" "rust"
      [sampleTaskU, sampleTaskV]).2⟩

/-- C7: every `(topic, category)` pair returned by the list-topics
operation for a user is contributed by one of that user's own rows, so for
any pair of distinct users the listing never contains a pair present only
in the other user's rows. -/
theorem topics_isolation (uid : String) (qcat : Option String)
    (rows : List Task) (g : String × String) (hg : g ∈ getTopics uid qcat rows) :
    ∃ t ∈ rows, t.userId = uid ∧ t.topic = g.1 ∧ t.category = g.2 := by
  unfold getTopics at hg
  rw [mem_sortByKeyDesc, List.mem_dedup, List.mem_map] at hg
  obtain ⟨t, ht, hpair⟩ := hg
  obtain ⟨htrows, hwhere⟩ := List.mem_filter.mp ht
  refine ⟨t, htrows, topicsWhere_userId uid qcat t hwhere, ?_, ?_⟩
  · rw [← hpair]
  · rw [← hpair]

/-- C7 (witness): on a one-row table for user `u`, the returned pair
`(rust, General)` is witnessed by that row. -/
theorem topics_isolation_witness :
    ∃ t ∈ [sampleTaskU], t.userId = "u" ∧
      t.topic = ("rust", "General").1 ∧ t.category = ("rust", "General").2 :=
  topics_isolation "u" none [sampleTaskU] ("rust", "General") (by decide)

/-- C10: passing the query parameter `category=all` to list-topics behaves
identically to omitting the parameter — the same groups in the same
order. -/
theorem topics_category_all_same_as_absent (uid : String) (rows : List Task) :
    getTopics uid (some "all") rows = getTopics uid none rows := by
  have h : topicsWhere uid (some "all") = topicsWhere uid none := by
    funext t
    simp [topicsWhere]
  simp only [getTopics, h]

/-- C8: generate-request validation accepts exactly the topics of length at
least 2; a shorter topic is rejected with status 400 before the provider is
contacted. -/
theorem generate_topic_min_length_two (t : String) :
    (parseGenerateBody ⟨some t⟩ = some t ↔ 2 ≤ t.length) ∧
    (t.length < 2 → ∀ o rows, generateRoute ⟨some t⟩ o rows = (rows, 400, none)) := by
  constructor
  · simp only [parseGenerateBody]
    split
    · simp_all
    · simp_all
  · intro h o rows
    simp [generateRoute, parseGenerateBody, Nat.not_le.mpr h]

/-- C8 (witness): topic `ab` passes validation; topic `a` is rejected with
status 400. -/
theorem generate_topic_min_length_two_witness :
    parseGenerateBody ⟨some "ab"⟩ = some "ab" ∧
    generateRoute ⟨some "a"⟩ GeminiOutcome.fetchFailed [] = ([], 400, none) :=
  ⟨(generate_topic_min_length_two "ab").1.mpr (by decide),
   (generate_topic_min_length_two "a").2 (by decide) GeminiOutcome.fetchFailed []⟩

/-- C2 (counterexample): when the provider answers a non-ok HTTP status the
handler returns status 500, not the 502 the claim states. -/
theorem generate_upstream_error_status_500_not_502 :
    (generateRoute ⟨some "ab"⟩ (.httpNotOk 503) []).2.1 = 500 ∧
    (500 : Nat) ≠ 502 := by
  decide

/-- C2 (amended): for every generate request passing validation, if the
provider's reply is a non-success status or an unparseable/empty body, the
handler answers status 500 (every failure path funnels into the shared
catch) and writes no rows to the task table. -/
theorem generate_failure_no_write_status_500 (g : GenBody) (o : GeminiOutcome)
    (rows : List Task) (hv : (parseGenerateBody g).isSome = true)
    (hfail : isUpstreamFailure o = true) :
    (generateRoute g o rows).1 = rows ∧ (generateRoute g o rows).2.1 = 500 := by
  obtain ⟨t, ht⟩ := Option.isSome_iff_exists.mp hv
  cases o <;> simp_all [generateRoute, generateHandler, isUpstreamFailure]

/-- C2 (witness): a non-JSON provider body on a one-row table leaves the
table unchanged and answers 500. -/
theorem generate_failure_no_write_witness :
    (generateRoute ⟨some "ab"⟩ GeminiOutcome.bodyNotJson [sampleTaskU]).1 = [sampleTaskU] ∧
    (generateRoute ⟨some "ab"⟩ GeminiOutcome.bodyNotJson [sampleTaskU]).2.1 = 500 :=
  generate_failure_no_write_status_500 ⟨some "ab"⟩ GeminiOutcome.bodyNotJson
    [sampleTaskU] (by decide) (by decide)

/-- C3 (counterexample): an update body with neither `content` nor
`isCompleted` passes validation, yet the handler ends in an internal error
(drizzle's `set` throws `No values to set`, surfaced as 500 by the global
error handler) even though a matching owned row exists — refuting the
claim's "no internal error". -/
theorem update_empty_body_internal_error_cex :
    validUpdateBody ⟨none, none⟩ = true ∧
    putHandler "u" 1 ⟨none, none⟩ [sampleTaskU] =
      ([sampleTaskU], UpdateOutcome.internalError) := by
  decide

/-- C3 (amended): an update body with neither field present passes
validation but produces an internal error (500) and changes no row; when at
least one field is present the handler applies exactly the present fields to
the matched row — a present field overwrites, an absent field keeps its old
value, and no other column changes. -/
theorem update_partial_fields_applied (uid : String) (id : Nat)
    (p : UpdatePayload) (rows : List Task) (hvalid : validUpdateBody p = true) :
    (p.content = none → p.isCompleted = none →
      putHandler uid id p rows = (rows, .internalError)) ∧
    ((p.content.isSome ∨ p.isCompleted.isSome) →
      (putHandler uid id p rows).1 =
        rows.map fun t => if rowKeyMatch uid id t then applySet p t else t) ∧
    (∀ t, (applySet p t).content = p.content.getD t.content ∧
          (applySet p t).isCompleted = p.isCompleted.getD t.isCompleted ∧
          (applySet p t).id = t.id ∧ (applySet p t).userId = t.userId ∧
          (applySet p t).topic = t.topic ∧ (applySet p t).category = t.category ∧
          (applySet p t).createdAt = t.createdAt) := by
  refine ⟨?_, ?_, ?_⟩
  · intro hc hic
    simp [putHandler, hvalid, hc, hic]
  · intro hsome
    have hne : (p.content.isNone && p.isCompleted.isNone) = false := by
      cases hc : p.content <;> cases hic : p.isCompleted <;> simp_all
    cases hfilter : rows.filter (rowKeyMatch uid id) with
    | nil =>
        have hmap := map_update_id uid id p rows (List.filter_eq_nil_iff.mp hfilter)
        simp [putHandler, hvalid, hne, hfilter, hmap]
    | cons u us =>
        simp [putHandler, hvalid, hne, hfilter]
  · intro t
    simp [applySet]

/-- C3 (witness): updating a concrete owned row with only `isCompleted`
present rewrites exactly the matched row through `applySet`. -/
theorem update_partial_fields_witness :
    (putHandler "u" 1 ⟨none, some true⟩ [sampleTaskU]).1 =
      [sampleTaskU].map fun t =>
        if rowKeyMatch "u" 1 t then applySet ⟨none, some true⟩ t else t :=
  (update_partial_fields_applied "u" 1 ⟨none, some true⟩ [sampleTaskU]
      (by decide)).2.1 (Or.inr (by decide))

/-- C4 (counterexample): a bulk-create body with no `category` field at all
is rejected by validation (400) and inserts nothing — an absent category
does not resolve to `General`, refuting the claim's "absent" clause. -/
theorem bulk_absent_category_rejected_cex :
    parseBulkBody ⟨some "rust", none, some ["learn ownership", "learn borrowing"]⟩ = none ∧
    bulkHandler "u" ⟨some "rust", none, some ["learn ownership", "learn borrowing"]⟩ 0 ⟨[], 1⟩
      = (⟨[], 1⟩, BulkOutcome.badRequest) := by
  decide

/-- C4 (amended): a blank (empty or whitespace-only) category resolves to
`General` on every inserted row of a bulk-create, and at least one row is
inserted; an absent category, however, is rejected with a validation error
(400) and nothing is inserted. -/
theorem bulk_blank_category_resolves_general (uid : String) (b : BulkBody)
    (now : Nat) (db : Db) :
    (∀ p, parseBulkBody b = some p → jsTrim p.category = "" →
      ∀ rs, (bulkHandler uid b now db).2 = BulkOutcome.created rs →
        rs ≠ [] ∧ ∀ t ∈ rs, t.category = "General") ∧
    (b.category = none → bulkHandler uid b now db = (db, BulkOutcome.badRequest)) := by
  constructor
  · intro p hp hblank rs hrs
    obtain ⟨-, -, -, -, hlen, -⟩ := parseBulkBody_eq_some b p hp
    have h2 : (bulkHandler uid b now db).2 =
        BulkOutcome.created (insertBulk uid p now db).2 := by
      simp [bulkHandler, hp]
    rw [h2] at hrs
    injection hrs with h
    subst h
    constructor
    · intro hnil
      have hL : (insertBulk uid p now db).2.length = p.contents.length := by
        simpa [insertBulk] using
          buildRows_length uid p.topic (finalCategory p.category) now db.nextId p.contents
      rw [hnil] at hL
      simp at hL
      omega
    · intro t ht
      have hm := mem_buildRows uid p.topic (finalCategory p.category) now
        db.nextId p.contents t (by simpa [insertBulk] using ht)
      rw [hm.2.2.1]
      simp [finalCategory, hblank]
  · intro hcat
    have hnone : parseBulkBody b = none := by
      obtain ⟨bt, bc, bcs⟩ := b
      simp only at hcat
      subst hcat
      cases bt <;> cases bcs <;> rfl
    simp [bulkHandler, hnone]

/-- C4 (witness): the spec scenario — topic `rust`, category `""`, two
contents — creates exactly the two rows and both carry category
`General`. -/
theorem bulk_blank_category_witness :
    (bulkHandler "u" rustBody 7 ⟨[], 1⟩).2 = BulkOutcome.created [rustRow1, rustRow2] ∧
    rustRow1.category = "General" ∧ rustRow2.category = "General" := by
  refine ⟨by decide, ?_, ?_⟩
  · exact ((bulk_blank_category_resolves_general "u" rustBody 7 ⟨[], 1⟩).1
      ⟨"rust", "", ["learn ownership", "learn borrowing"]⟩ (by decide) (by decide)
      [rustRow1, rustRow2] (by decide)).2 rustRow1 (by decide)
  · exact ((bulk_blank_category_resolves_general "u" rustBody 7 ⟨[], 1⟩).1
      ⟨"rust", "", ["learn ownership", "learn borrowing"]⟩ (by decide) (by decide)
      [rustRow1, rustRow2] (by decide)).2 rustRow2 (by decide)

/-- C5: a valid bulk-create with N content strings (N ≥ 1 is forced by the
schema) appends exactly N rows, in content order, all sharing the supplied
topic, the resolved category and the caller's userId; a body whose content
sequence is empty fails validation (400) and inserts nothing. -/
theorem bulk_create_inserts_exactly_n (uid : String) (b : BulkBody)
    (now : Nat) (db : Db) :
    (∀ p, parseBulkBody b = some p →
      1 ≤ p.contents.length ∧
      bulkHandler uid b now db =
        (⟨db.rows ++ (insertBulk uid p now db).2, db.nextId + p.contents.length⟩,
          BulkOutcome.created (insertBulk uid p now db).2) ∧
      (insertBulk uid p now db).2.length = p.contents.length ∧
      (insertBulk uid p now db).2.map Task.content = p.contents ∧
      ∀ t ∈ (insertBulk uid p now db).2,
        t.userId = uid ∧ t.topic = p.topic ∧
        t.category = finalCategory p.category ∧
        t.isCompleted = false) ∧
    (b.contents = some [] → bulkHandler uid b now db = (db, BulkOutcome.badRequest)) := by
  constructor
  · intro p hp
    obtain ⟨-, -, -, -, hlen, -⟩ := parseBulkBody_eq_some b p hp
    refine ⟨hlen, by simp [bulkHandler, hp, insertBulk], ?_, ?_, ?_⟩
    · simp [insertBulk, buildRows_length]
    · simp [insertBulk, buildRows_map_content]
    · intro t ht
      have := mem_buildRows uid p.topic (finalCategory p.category) now
        db.nextId p.contents t (by simpa [insertBulk] using ht)
      exact ⟨this.1, this.2.1, this.2.2.1, this.2.2.2.1⟩
  · intro hcs
    have hnone : parseBulkBody b = none := by
      obtain ⟨bt, bc, bcs⟩ := b
      simp only at hcs
      subst hcs
      cases bt <;> cases bc <;> simp [parseBulkBody]
    simp [bulkHandler, hnone]

/-- C5 (witness): a concrete three-content bulk-create inserts exactly
three rows whose contents are the request's contents in order. -/
theorem bulk_create_inserts_exactly_n_witness :
    (insertBulk "u" ⟨"lean", "Learning", ["read tpil", "do exercises", "prove things"]⟩
        3 ⟨[], 10⟩).2.length = 3 ∧
    (insertBulk "u" ⟨"lean", "Learning", ["read tpil", "do exercises", "prove things"]⟩
        3 ⟨[], 10⟩).2.map Task.content = ["read tpil", "do exercises", "prove things"] := by
  have h := (bulk_create_inserts_exactly_n "u" bulkBodyEx 3 ⟨[], 10⟩).1
      ⟨"lean", "Learning", ["read tpil", "do exercises", "prove things"]⟩ (by decide)
  exact ⟨h.2.2.1, h.2.2.2.1⟩

/-- C6: for a caller and a task id that matches none of the caller's rows —
which covers both an id owned by a different user and an id absent from the
table — the update (with a valid, non-empty body) and the delete both
answer the same fixed NotFound outcome (404, `Task not found`) and leave
every row unchanged, so the two situations are indistinguishable. -/
theorem foreign_or_absent_id_uniform_not_found (uid : String) (id : Nat)
    (p : UpdatePayload) (rows : List Task)
    (hvalid : validUpdateBody p = true)
    (hsome : p.content.isSome ∨ p.isCompleted.isSome)
    (hnoown : ∀ t ∈ rows, t.id = id → t.userId ≠ uid) :
    putHandler uid id p rows = (rows, UpdateOutcome.notFound) ∧
    deleteTaskHandler uid id rows = (rows, DeleteOutcome.notFound) := by
  have hfilter : rows.filter (rowKeyMatch uid id) = [] := by
    rw [List.filter_eq_nil_iff]
    intro a ha
    simp only [rowKeyMatch, Bool.and_eq_true, beq_iff_eq, not_and]
    intro hid
    exact fun h => hnoown a ha hid h
  have hne : (p.content.isNone && p.isCompleted.isNone) = false := by
    cases hc : p.content <;> cases hic : p.isCompleted <;> simp_all
  constructor
  · simp [putHandler, hvalid, hne, hfilter]
  · simp [deleteTaskHandler, hfilter]

/-- C6 (witness): id 2 exists but is owned by user `v`; for caller `u` both
the update and the delete answer NotFound and the table is unchanged. -/
theorem foreign_or_absent_id_witness :
    putHandler "u" 2 ⟨some "z", none⟩ [sampleTaskV] =
      ([sampleTaskV], UpdateOutcome.notFound) ∧
    deleteTaskHandler "u" 2 [sampleTaskV] =
      ([sampleTaskV], DeleteOutcome.notFound) :=
  foreign_or_absent_id_uniform_not_found "u" 2 ⟨some "z", none⟩ [sampleTaskV]
    (by decide) (Or.inl (by decide)) (by decide)

/-- C9: every row inserted by a valid bulk-create appears in the subsequent
task listing filtered to the request's topic for the same caller, with its
content one of the request's contents and `isCompleted = false`. -/
theorem bulk_create_then_list_roundtrip (uid : String) (b : BulkBody)
    (now : Nat) (db : Db) :
    ∀ p, parseBulkBody b = some p →
      ∀ t ∈ (insertBulk uid p now db).2,
        t ∈ getTasks uid (some p.topic) (bulkHandler uid b now db).1.rows ∧
        t.content ∈ p.contents ∧ t.isCompleted = false := by
  intro p hp t ht
  obtain ⟨-, -, -, htop, -, -⟩ := parseBulkBody_eq_some b p hp
  have hmem := mem_buildRows uid p.topic (finalCategory p.category) now db.nextId
    p.contents t (by simpa [insertBulk] using ht)
  have hrows : (bulkHandler uid b now db).1.rows =
      db.rows ++ (insertBulk uid p now db).2 := by
    simp [bulkHandler, hp, insertBulk]
  refine ⟨?_, hmem.2.2.2.2.2, hmem.2.2.2.1⟩
  rw [hrows]
  unfold getTasks
  rw [mem_sortByKeyDesc]
  apply List.mem_filter.mpr
  refine ⟨List.mem_append_right _ ht, ?_⟩
  have hne : p.topic ≠ "" := string_ne_empty_of_one_le_length _ htop
  simp [tasksWhere, hmem.1, hmem.2.1, hne]

/-- C9 (witness): after the concrete `rust` bulk-create, the first inserted
row is in the listing for topic `rust`, its content is one of the request's
contents, and it is not completed. -/
theorem bulk_create_then_list_roundtrip_witness :
    rustRow1 ∈ getTasks "u" (some "rust") (bulkHandler "u" rustBody 7 ⟨[], 1⟩).1.rows ∧
    rustRow1.content ∈ ["learn ownership", "learn borrowing"] ∧
    rustRow1.isCompleted = false :=
  bulk_create_then_list_roundtrip "u" rustBody 7 ⟨[], 1⟩
    ⟨"rust", "", ["learn ownership", "learn borrowing"]⟩ (by decide) rustRow1 (by decide)

end TaskApi
